import Mathlib

/-!
Shallow embedding of the Address-to-UW-Madison-ADI tool
(`src/Location.py` and `src/main.py`).

Modelling conventions:
* Python `str` is Lean `String`; Python slicing and `lstrip` act on code
  points, modelled through `String.toList`.
* Python `float` coordinate values are never used arithmetically by the
  program, so they are modelled by an opaque numeric carrier `Coord := Int`.
* A Python `dict[str, v]` is modelled as an insertion-ordered association
  list with unique keys; `dictInsert` replaces the value in place when the
  key exists (Python dict semantics) and appends otherwise.
* External collaborators (the Google geocoder, the FCC census-block API)
  are parameters: functions from the request data to the response payload.
* A Python exception escaping a function is modelled with `Except Unit`.
-/

namespace AdiSpec

/-- Carrier for latitude/longitude values (Python floats; the program never
does arithmetic on them, only stores and forwards them). -/
abbrev Coord := Int

/-- `Location.py` dataclass `Location`: one postal address plus all
enrichment results. `adi_data` maps an ADI version string to the pair
(state rank, national rank), both kept as strings. -/
structure Location where
  street : String
  apt_num : String
  city : String
  state : String
  zipcode : String
  census_year : Int
  latitude : Option Coord := none
  longitude : Option Coord := none
  fips : String := ""
  adi_data : List (String × (String × String)) := []
deriving Repr, DecidableEq

/-- Python dict assignment `m[k] = v`: replace in place if the key is
present, else append at the end (insertion order preserved). -/
def dictInsert : List (String × α) → String → α → List (String × α)
  | [], k, v => [(k, v)]
  | p :: rest, k, v => if p.1 = k then (k, v) :: rest else p :: dictInsert rest k v

/-- Python dict lookup `m[k]` / membership `k in m`. -/
def dictLookup (m : List (String × α)) (k : String) : Option α :=
  (m.find? (fun p => p.1 == k)).map (·.2)

/-- `_PO_BOX_CHECKS` from `Location.py` (a set literal; iteration order is
irrelevant because it is only consumed by `any`). -/
def PO_BOX_CHECKS : List String :=
  ["POBOX", "PO BOX", "P O BOX", "P.O BOX", "P.OBOX", "P. O BOX",
   "PO. BOX", "PO.BOX", "P O. BOX", "P.O. BOX", "P. O. BOX", "P.O.BOX"]

/-- `_MILITARY_MAIL_POST_OFFICE` from `Location.py`. -/
def MILITARY_MAIL_POST_OFFICE : List String := ["APO", "FPO", "DPO"]

/-- `_MILITARY_MAIL_STATES` from `Location.py`. -/
def MILITARY_MAIL_STATES : List String := ["AA", "AP", "AE"]

/-- Substring test on code points: Python `pat in s`. -/
def listHasInfix (pat : List Char) : List Char → Bool
  | [] => pat.isEmpty
  | c :: rest => pat.isPrefixOf (c :: rest) || listHasInfix pat rest

/-- Python `pat in s` for strings. -/
def containsSub (s pat : String) : Bool := listHasInfix pat.toList s.toList

/-- Python `s.upper()`: uppercase character by character (the data handled
here is ASCII, where Python's and Lean's per-character uppercase agree). -/
def pyUpper (s : String) : String := ⟨s.toList.map Char.toUpper⟩

/-- `Location.get_full_address`: joins the five address attributes with
single spaces. -/
def get_full_address (loc : Location) : String :=
  String.intercalate " " [loc.street, loc.apt_num, loc.city, loc.state, loc.zipcode]

/-- `Location.can_geocode`: a pure predicate. The Python list
comprehensions `any([i for i in S if i in x])` are truthy exactly when some
element of `S` occurs in `x`, i.e. `S.any (containsSub x ·)`. -/
def can_geocode (loc : Location) : Bool :=
  let street_upper := pyUpper loc.street
  let city_upper := pyUpper loc.city
  let state_upper := pyUpper loc.state
  let is_military_address :=
    MILITARY_MAIL_POST_OFFICE.any (fun i => containsSub city_upper i)
      || MILITARY_MAIL_STATES.contains state_upper
      || containsSub street_upper "PSC "
  let street_has_po_box := PO_BOX_CHECKS.any (fun i => containsSub street_upper i)
  decide (0 < loc.street.length) && decide (0 < loc.city.length)
    && decide (0 < loc.state.length)
    && !is_military_address && !street_has_po_box

/-- One step of `_GISJOIN_REGEX`: the fifteen characters
`G` `[0-9]{2}` `0` `[0-9]{3}` `0` `[0-9]{7}` yield the three captured
groups. -/
def gisjoinGroups (g a1 a2 z1 b1 b2 b3 z2 c1 c2 c3 c4 c5 c6 c7 : Char) :
    Option (String × String × String) :=
  if g = 'G' ∧ a1.isDigit ∧ a2.isDigit ∧ z1 = '0' ∧
     b1.isDigit ∧ b2.isDigit ∧ b3.isDigit ∧ z2 = '0' ∧
     c1.isDigit ∧ c2.isDigit ∧ c3.isDigit ∧ c4.isDigit ∧
     c5.isDigit ∧ c6.isDigit ∧ c7.isDigit then
    some (⟨[a1, a2]⟩, ⟨[b1, b2, b3]⟩, ⟨[c1, c2, c3, c4, c5, c6, c7]⟩)
  else none

/-- `_GISJOIN_REGEX.search`: the pattern is anchored with `^` and `$`, so a
match requires the whole string to be `G` + 2 digits + `0` + 3 digits +
`0` + 7 digits (Python's `$` also matches just before one trailing
newline). `none` models `re.search` returning `None`. -/
def gisjoinRegexSearch (s : String) : Option (String × String × String) :=
  match s.toList with
  | [g, a1, a2, z1, b1, b2, b3, z2, c1, c2, c3, c4, c5, c6, c7] =>
    gisjoinGroups g a1 a2 z1 b1 b2 b3 z2 c1 c2 c3 c4 c5 c6 c7
  | [g, a1, a2, z1, b1, b2, b3, z2, c1, c2, c3, c4, c5, c6, c7, nl] =>
    if nl = '\n' then gisjoinGroups g a1 a2 z1 b1 b2 b3 z2 c1 c2 c3 c4 c5 c6 c7
    else none
  | _ => none

/-- `main._gisjoin_to_fips`. The source calls
`_GISJOIN_REGEX.search(gisjoin).groups()` without checking for `None`, so a
non-matching string raises `AttributeError` (modelled as `Except.error ()`).
On a match there are always exactly three groups of lengths 2, 3 and 7
(checked again by the source), and their concatenation is returned; the
`return ""` failure branch is unreachable. -/
def gisjoin_to_fips (gisjoin : String) : Except Unit String :=
  match gisjoinRegexSearch gisjoin with
  | none => Except.error ()
  | some (s, c, x) =>
    if s.length = 2 ∧ c.length = 3 ∧ x.length = 7 then Except.ok (s ++ c ++ x)
    else Except.ok ""

/-- One CSV row of an ADI source file, with the columns `load_adi_data`
reads (`GISJOIN`, `FIPS`, `ADI_STATERNK`, `ADI_NATRANK`). -/
structure AdiRow where
  gisjoin : String
  fips : String
  staternk : String
  natrank : String
deriving Repr, DecidableEq

/-- The key derivation in the row loop of `load_adi_data`:
`_gisjoin_to_fips(row["GISJOIN"]) if csv_has_gisjoin_only else row["FIPS"]`. -/
def rowKey (gisjoinOnly : Bool) (r : AdiRow) : Except Unit String :=
  if gisjoinOnly then gisjoin_to_fips r.gisjoin else Except.ok r.fips

/-- The row loop of `load_adi_data`, threading the accumulated dict; an
exception from `_gisjoin_to_fips` propagates (there is no `try` around the
loop). -/
def loadGo (gisjoinOnly : Bool) :
    List AdiRow → List (String × (String × String)) →
      Except Unit (List (String × (String × String)))
  | [], m => Except.ok m
  | r :: rest, m =>
    match rowKey gisjoinOnly r with
    | Except.error e => Except.error e
    | Except.ok f => loadGo gisjoinOnly rest (dictInsert m f (r.staternk, r.natrank))

/-- `load_adi_data` restricted to one source file: builds the
FIPS-to-ranks dict from the file's rows, starting from the empty dict. -/
def loadFileRows (gisjoinOnly : Bool) (rows : List AdiRow) :
    Except Unit (List (String × (String × String))) :=
  loadGo gisjoinOnly rows []

/-- Python slicing `s[:n]`: the first `n` code points. -/
def pyTake (s : String) (n : Nat) : String := ⟨s.toList.take n⟩

/-- The per-sheet lookup-key normalization in `Location.get_adi`
(`match len(fips_for_lookup)`): 12 chars are used as-is, 14 chars get one
`"0"` prepended and are cut to 12, 15 chars are cut to 12, anything else
fails (the source then returns the empty tuple `()`). -/
def fipsForLookup (f : String) : Option String :=
  if f.length = 12 then some f
  else if f.length = 14 then some (pyTake ("0" ++ f) 12)
  else if f.length = 15 then some (pyTake f 12)
  else none

/-- The value `Location.get_adi` returns: either a dict (possibly empty) or
the empty tuple `()` from the invalid-FIPS-length branch — a different
Python type. -/
inductive AdiResult where
  | dict (d : List (String × (String × String)))
  | emptyTuple
deriving Repr, DecidableEq

/-- The `for adi_sheet in local_adi_file_data` loop of `Location.get_adi`:
per sheet, normalize the stored FIPS into a lookup key (returning the empty
tuple `()` if its length is invalid) and, when the key is present in the
sheet's dict, record that sheet's ranks under its version string. -/
def get_adi_go (loc : Location) :
    List (String × List (String × (String × String))) → Location × AdiResult
  | [] => (loc, AdiResult.dict loc.adi_data)
  | (ver, data) :: rest =>
    match fipsForLookup loc.fips with
    | none => (loc, AdiResult.emptyTuple)
    | some key =>
      match dictLookup data key with
      | some ranks =>
        get_adi_go { loc with adi_data := dictInsert loc.adi_data ver ranks } rest
      | none => get_adi_go loc rest

/-- `Location.get_adi`: with an empty stored FIPS it returns a fresh empty
dict `dict()` at once; otherwise it runs the sheet loop. -/
def get_adi (loc : Location)
    (local_adi_file_data : List (String × List (String × (String × String)))) :
    Location × AdiResult :=
  if loc.fips.length = 0 then (loc, AdiResult.dict [])
  else get_adi_go loc local_adi_file_data

/-- One row of the final CSV: `asdict(self)` minus `adi_data`, plus the
three ADI columns (`prep_for_output`). -/
structure OutputRow where
  street : String
  apt_num : String
  city : String
  state : String
  zipcode : String
  census_year : Int
  latitude : Option Coord
  longitude : Option Coord
  fips : String
  adi_version : String
  adi_state : String
  adi_national : String
deriving Repr, DecidableEq

/-- `Location.prep_for_output`: one output row per entry of `adi_data`, all
sharing the record's fields, each carrying its entry's version and ranks. -/
def prep_for_output (loc : Location) : List OutputRow :=
  loc.adi_data.map (fun e =>
    { street := loc.street, apt_num := loc.apt_num, city := loc.city,
      state := loc.state, zipcode := loc.zipcode, census_year := loc.census_year,
      latitude := loc.latitude, longitude := loc.longitude, fips := loc.fips,
      adi_version := e.1, adi_state := e.2.1, adi_national := e.2.2 })

/-- `string.digits`, used by `full_address.lstrip(DIGITS)`. -/
def DIGITS : String := "0123456789"

/-- Python `s.lstrip(DIGITS)`: drop leading characters that are decimal
digits. -/
def lstripDigits (s : String) : String :=
  ⟨s.toList.dropWhile (fun c => DIGITS.toList.contains c)⟩

/-- The geocoder result's `raw["geometry"]["location"]` payload; a missing
`"lat"`/`"lng"` key (Python `KeyError` on access) is modelled by `none`. -/
structure GeoPayload where
  lat : Option Coord
  lng : Option Coord
deriving Repr, DecidableEq

/-- The assignment block of `Location.get_latlong` once a query result is
in hand: `self.latitude = location_geometry["lat"]` runs first, and only
then `self.longitude = location_geometry["lng"]`; a `KeyError` on `"lng"`
is caught AFTER latitude was already written. Returns the updated record
and the returned tuple (`[la, lo]` for `(latitude, longitude)`, `[]` for
the empty tuple `()` produced after a caught exception). -/
def applyGeoResult (loc : Location) (g : GeoPayload) : Location × List Coord :=
  match g.lat with
  | none => (loc, [])
  | some la =>
    let loc1 : Location := { loc with latitude := some la }
    match g.lng with
    | none => (loc1, [])
    | some lo => ({ loc1 with longitude := some lo }, [la, lo])

/-- `Location.get_latlong`, instrumented with the list of query strings
sent to the geocoder (in order). The geocoder collaborator maps a query
string to `None` or a result payload. On no result for the full address,
exactly one alternate query with leading digits stripped is issued. -/
def get_latlong_trace (loc : Location) (geocoder : String → Option GeoPayload) :
    (Location × List Coord) × List String :=
  if can_geocode loc then
    let full_address := get_full_address loc
    match geocoder full_address with
    | some g => (applyGeoResult loc g, [full_address])
    | none =>
      let alternate_address := lstripDigits full_address
      match geocoder alternate_address with
      | some g => (applyGeoResult loc g, [full_address, alternate_address])
      | none => ((loc, []), [full_address, alternate_address])
  else ((loc, []), [])

/-- `Location.get_latlong`: the record/return part of the traced version. -/
def get_latlong (loc : Location) (geocoder : String → Option GeoPayload) :
    Location × List Coord :=
  (get_latlong_trace loc geocoder).1

/-- The FCC API response as `get_fips` inspects it. `blockFips = none`
models a JSON document without the `"Block"`/`"FIPS"` keys (the
unexpected-format branch); `some none` models a `null` value; `some (some
s)` models a string value `s` (falsy when empty). -/
structure FccData where
  blockFips : Option (Option String)
deriving Repr, DecidableEq

/-- `Location.get_fips`, with the FCC census-block API as a collaborator
from (latitude, longitude, census year) to a response (`Except.error ()`
models an exception during the request, caught by the source). The `Bool`
records whether the collaborator was invoked at all. -/
def get_fips (loc : Location) (api : Coord → Coord → Int → Except Unit FccData) :
    (Location × String) × Bool :=
  match loc.latitude, loc.longitude with
  | some la, some lo =>
    (match api la lo loc.census_year with
     | Except.error _ => (loc, "")
     | Except.ok data =>
       match data.blockFips with
       | none => (loc, "")
       | some none => (loc, "")
       | some (some fips_code) =>
         if fips_code = "" then (loc, "")
         else ({ loc with fips := fips_code }, fips_code), true)
  | _, _ => ((loc, ""), false)

/-- The selection a single row contributes to a lookup of key `k` in the
finished per-file dict: its rank pair when its derived key is `k`. -/
def rowSelect (gisjoinOnly : Bool) (k : String) (r : AdiRow) : Option (String × String) :=
  match rowKey gisjoinOnly r with
  | Except.ok f => if f = k then some (r.staternk, r.natrank) else none
  | Except.error _ => none

/-- The rank pair of the last row (in file order) whose derived FIPS key is
`k`, if any. -/
def lastRankFor (gisjoinOnly : Bool) (rows : List AdiRow) (k : String) :
    Option (String × String) :=
  rows.reverse.findSome? (rowSelect gisjoinOnly k)

/-- The both-or-neither coordinate invariant of an address record. -/
def coordsTogether (loc : Location) : Bool :=
  loc.latitude.isSome == loc.longitude.isSome

/-- A concrete eligible address used as a test input. -/
def sampleLoc : Location :=
  { street := "123 Main St", apt_num := "", city := "Irvine", state := "CA",
    zipcode := "92697", census_year := 2020 }

/-- A concrete record whose stored FIPS has an invalid length (3). -/
def locBadFips : Location :=
  { street := "123 Main St", apt_num := "", city := "Irvine", state := "CA",
    zipcode := "92697", census_year := 2020, fips := "060" }

/-- A concrete loaded ADI sheet. -/
def sheet0 : String × List (String × (String × String)) :=
  ("US_2022_v4_0_1", [("010010208032", ("3", "64"))])

/-- An ADI CSV row whose GISJOIN does not match `_GISJOIN_REGEX`. -/
def badGisjoinRow : AdiRow := { gisjoin := "BAD", fips := "", staternk := "1", natrank := "2" }

/-- An ADI CSV row whose GISJOIN matches `_GISJOIN_REGEX`. -/
def goodGisjoinRow : AdiRow :=
  { gisjoin := "G01000100208032", fips := "", staternk := "3", natrank := "4" }

/-- Two rows of a FIPS-column file with the same FIPS key. -/
def dupKeyRows : List AdiRow :=
  [{ gisjoin := "", fips := "010010208032", staternk := "1", natrank := "2" },
   { gisjoin := "", fips := "010010208032", staternk := "3", natrank := "4" }]

/-- A string has positive length iff it is not empty. -/
theorem string_length_pos_iff (s : String) : 0 < s.length ↔ s ≠ "" := by
  cases s with
  | mk data =>
    cases data with
    | nil => simp [String.length]
    | cons c cs =>
      simp only [String.length]
      constructor
      · intro _ h
        exact List.cons_ne_nil c cs (congrArg String.data h)
      · intro _
        exact Nat.succ_pos _

/-- C1: `can_geocode` returns `true` iff street, city and state are all
non-empty, the uppercased city contains none of "APO"/"FPO"/"DPO", the
uppercased state is not exactly one of "AA"/"AP"/"AE", the uppercased
street does not contain "PSC ", and the uppercased street contains none of
the twelve PO-box spelling variants. (The embedding is a pure function of
the record, so it mutates nothing.) -/
theorem can_geocode_iff (loc : Location) :
    can_geocode loc = true ↔
      (loc.street ≠ "" ∧ loc.city ≠ "" ∧ loc.state ≠ "" ∧
       (∀ m ∈ MILITARY_MAIL_POST_OFFICE, containsSub (pyUpper loc.city) m = false) ∧
       pyUpper loc.state ∉ MILITARY_MAIL_STATES ∧
       containsSub (pyUpper loc.street) "PSC " = false ∧
       (∀ v ∈ PO_BOX_CHECKS, containsSub (pyUpper loc.street) v = false)) := by
  simp only [can_geocode, Bool.and_eq_true, decide_eq_true_eq, Bool.not_eq_true',
    Bool.or_eq_false_iff, List.any_eq_false, List.contains, List.elem_eq_mem,
    string_length_pos_iff, decide_eq_false_iff_not, Bool.not_eq_true]
  tauto

/-- Prepending `"0"` and cutting to 12 code points keeps the `"0"` plus the
first 11 code points of the original. -/
theorem pyTake_zero_prepend (f : String) : pyTake ("0" ++ f) 12 = "0" ++ pyTake f 11 := by
  cases f with
  | mk data => rfl

/-- `get_adi_go` never changes the stored FIPS of the record. -/
theorem get_adi_go_fips :
    ∀ (files : List (String × List (String × (String × String)))) (loc : Location),
      (get_adi_go loc files).1.fips = loc.fips := by
  intro files
  induction files with
  | nil => intro loc; rfl
  | cons p rest ih =>
    intro loc
    cases p with
    | mk ver data =>
      simp only [get_adi_go]
      split
      · rfl
      · split
        · exact ih _
        · exact ih loc

/-- C2: during ADI matching the lookup key is a function of the stored
FIPS: a 12-char value is used as-is, a 14-char value becomes `"0"` plus its
first 11 characters (a single `"0"` prepended, then cut to the first 12), a
15-char value is cut to its first 12 characters, and any other length
fails; and `get_adi` never mutates the record's stored FIPS. -/
theorem fips_lookup_key_normalization (loc : Location)
    (files : List (String × List (String × (String × String)))) (f : String) :
    fipsForLookup f =
      (if f.length = 12 then some f
       else if f.length = 14 then some ("0" ++ pyTake f 11)
       else if f.length = 15 then some (pyTake f 12)
       else none) ∧
    pyTake ("0" ++ f) 12 = "0" ++ pyTake f 11 ∧
    (get_adi loc files).1.fips = loc.fips := by
  refine ⟨?_, pyTake_zero_prepend f, ?_⟩
  · simp only [fipsForLookup, pyTake_zero_prepend f]
  · unfold get_adi
    by_cases h : loc.fips.length = 0
    · simp [h]
    · simp only [h, if_false]
      exact get_adi_go_fips files loc

/-- C3: the GISJOIN converter does concatenate the three digit groups of a
matching string (`"G01000100208032"` yields `"010010208032"`), but for a
non-matching string the claim fails on the code: `_GISJOIN_REGEX.search`
returns `None` and the immediate `.groups()` call raises `AttributeError`
(modelled by `Except.error ()`) instead of logging and returning the empty
string — the `return ""` branch is unreachable. -/
theorem gisjoin_to_fips_at_failing_input :
    gisjoin_to_fips "G01000100208032" = Except.ok "010010208032" ∧
    gisjoin_to_fips "X" = Except.error () := by
  exact ⟨rfl, rfl⟩

/-- C5 counterexample: a GISJOIN-only file with one non-matching row and
one matching row does not produce a dict at all — the load raises instead
of dropping the bad row and continuing. -/
theorem load_bad_row_not_dropped :
    ¬ ∃ m, loadFileRows true [badGisjoinRow, goodGisjoinRow] = Except.ok m := by
  rintro ⟨m, h⟩
  rw [show loadFileRows true [badGisjoinRow, goodGisjoinRow] = Except.error () from rfl] at h
  exact Except.noConfusion h

/-- If some row's GISJOIN fails to convert, the row loop raises no matter
what has been accumulated so far. -/
theorem loadGo_error_of_bad_row :
    ∀ (rows : List AdiRow) (m : List (String × (String × String))),
      (∃ r ∈ rows, gisjoin_to_fips r.gisjoin = Except.error ()) →
      loadGo true rows m = Except.error () := by
  intro rows
  induction rows with
  | nil =>
    rintro m ⟨r, hr, _⟩
    cases hr
  | cons a rest ih =>
    rintro m ⟨r, hr, hbad⟩
    rcases List.mem_cons.mp hr with h1 | h2
    · subst h1
      simp only [loadGo, rowKey, if_pos]
      rw [hbad]
    · cases hk : rowKey true a with
      | error e =>
        cases e
        simp only [loadGo]
        rw [hk]
      | ok f =>
        simp only [loadGo]
        rw [hk]
        exact ih _ ⟨r, h2, hbad⟩

/-- C5 (amended): in a GISJOIN-only source file, a row whose GISJOIN does
not match the pattern makes the whole per-file load fail with an uncaught
exception (`AttributeError` from calling `.groups()` on `None`); no
FIPS-to-ranks mapping is produced for that file and the remaining rows are
not processed. -/
theorem loadFileRows_error_of_bad_row (rows : List AdiRow)
    (h : ∃ r ∈ rows, gisjoin_to_fips r.gisjoin = Except.error ()) :
    loadFileRows true rows = Except.error () :=
  loadGo_error_of_bad_row rows [] h

/-- C5 witness: the amended claim at a concrete two-row file. -/
theorem loadFileRows_error_of_bad_row_witness :
    (∃ r ∈ [badGisjoinRow, goodGisjoinRow],
      gisjoin_to_fips r.gisjoin = Except.error ()) ∧
    loadFileRows true [badGisjoinRow, goodGisjoinRow] = Except.error () :=
  ⟨⟨badGisjoinRow, List.mem_cons_self _ _, rfl⟩,
   loadFileRows_error_of_bad_row _ ⟨badGisjoinRow, List.mem_cons_self _ _, rfl⟩⟩

/-- C6: `prep_for_output` yields exactly one output row per `adi_data`
entry (so zero rows for an empty mapping and two rows for a two-entry
mapping), and the `i`-th row copies all of the record's identity/derived
fields together with the `i`-th entry's version and rank values. -/
theorem prep_for_output_rows (loc : Location) :
    (prep_for_output loc).length = loc.adi_data.length ∧
    ∀ i : Nat, (prep_for_output loc)[i]? =
      (loc.adi_data[i]?).map (fun e =>
        { street := loc.street, apt_num := loc.apt_num, city := loc.city,
          state := loc.state, zipcode := loc.zipcode, census_year := loc.census_year,
          latitude := loc.latitude, longitude := loc.longitude, fips := loc.fips,
          adi_version := e.1, adi_state := e.2.1, adi_national := e.2.2 }) := by
  constructor
  · simp [prep_for_output]
  · intro i
    simp [prep_for_output]

/-- C4 counterexample: on an eligible record with both coordinates absent,
a geocoder result whose geometry has a `"lat"` value but no `"lng"` key
leaves the record with latitude present and longitude absent — the
caught `KeyError` fires only after `self.latitude` was already assigned. -/
theorem get_latlong_lat_only_breaks_invariant :
    coordsTogether sampleLoc = true ∧
    coordsTogether (get_latlong sampleLoc
      (fun _ => some { lat := some 1, lng := none })).1 = false := by
  exact ⟨rfl, rfl⟩

/-- The assignment block preserves the coordinate invariant when the
payload never has a latitude without a longitude. -/
theorem applyGeoResult_coordsTogether (loc : Location) (g : GeoPayload)
    (h0 : coordsTogether loc = true)
    (hg : g.lat.isSome = true → g.lng.isSome = true) :
    coordsTogether (applyGeoResult loc g).1 = true := by
  cases hlat : g.lat with
  | none => simpa [applyGeoResult, hlat] using h0
  | some la =>
    have hlng := hg (by rw [hlat]; rfl)
    cases hlng2 : g.lng with
    | none => rw [hlng2] at hlng; exact absurd hlng (by simp)
    | some lo => simp [applyGeoResult, hlat, hlng2, coordsTogether]

/-- C4 (amended): after `get_latlong`, latitude and longitude are both
present or both absent provided they were so before the call and every
payload the geocoder returns that has a latitude value also has a
longitude value; when a returned geometry carries a latitude but lacks a
longitude, the record instead ends with latitude present and longitude
absent (see the counterexample). -/
theorem get_latlong_coordsTogether (loc : Location)
    (geocoder : String → Option GeoPayload)
    (h0 : coordsTogether loc = true)
    (hg : ∀ s p, geocoder s = some p → p.lat.isSome = true → p.lng.isSome = true) :
    coordsTogether (get_latlong loc geocoder).1 = true := by
  unfold get_latlong get_latlong_trace
  by_cases hc : can_geocode loc
  · simp only [hc, if_true]
    cases h1 : geocoder (get_full_address loc) with
    | some g => exact applyGeoResult_coordsTogether loc g h0 (hg _ g h1)
    | none =>
      cases h2 : geocoder (lstripDigits (get_full_address loc)) with
      | some g => exact applyGeoResult_coordsTogether loc g h0 (hg _ g h2)
      | none => exact h0
  · simp only [hc, if_false]
    exact h0

/-- C4 witness: the amended claim at a concrete record and geocoder. -/
theorem get_latlong_coordsTogether_witness :
    coordsTogether sampleLoc = true ∧
    coordsTogether (get_latlong sampleLoc
      (fun _ => some { lat := some 1, lng := some 2 })).1 = true :=
  ⟨rfl, get_latlong_coordsTogether sampleLoc _ rfl
    (fun _ p hp _ => by cases hp; rfl)⟩

/-- C7: for an eligible record, when the geocoder returns no result for
the full address, exactly one further query is issued, its text is the
full address with leading digit characters stripped, and no query beyond
those two is issued whatever the alternate query returns. -/
theorem get_latlong_fallback_query (loc : Location)
    (geocoder : String → Option GeoPayload)
    (hc : can_geocode loc = true)
    (h1 : geocoder (get_full_address loc) = none) :
    (get_latlong_trace loc geocoder).2 =
      [get_full_address loc, lstripDigits (get_full_address loc)] := by
  unfold get_latlong_trace
  simp only [hc, if_true, h1]
  cases h2 : geocoder (lstripDigits (get_full_address loc)) <;> rfl

/-- C7 witness: the fallback claim at a concrete record with a geocoder
that always returns no result. -/
theorem get_latlong_fallback_query_witness :
    can_geocode sampleLoc = true ∧
    (get_latlong_trace sampleLoc (fun _ => none)).2 =
      [get_full_address sampleLoc, lstripDigits (get_full_address sampleLoc)] :=
  ⟨by decide, get_latlong_fallback_query sampleLoc _ (by decide) rfl⟩

/-- C8: with latitude or longitude absent, `get_fips` returns the empty
string at once, never invokes the census-block collaborator, and leaves
the record (in particular its stored FIPS) unchanged. -/
theorem get_fips_missing_coords (loc : Location)
    (api : Coord → Coord → Int → Except Unit FccData)
    (h : loc.latitude = none ∨ loc.longitude = none) :
    get_fips loc api = ((loc, ""), false) := by
  unfold get_fips
  rcases h with h | h
  · rw [h]
  · rw [h]
    cases loc.latitude <;> rfl

/-- C8 witness: the claim at a concrete coordinate-free record. -/
theorem get_fips_missing_coords_witness :
    (sampleLoc.latitude = none ∨ sampleLoc.longitude = none) ∧
    get_fips sampleLoc (fun _ _ _ => Except.error ()) = ((sampleLoc, ""), false) :=
  ⟨Or.inl rfl, get_fips_missing_coords sampleLoc _ (Or.inl rfl)⟩

/-- Unfolding dict lookup over a head entry. -/
theorem dictLookup_cons (p : String × α) (l : List (String × α)) (k : String) :
    dictLookup (p :: l) k = if p.1 = k then some p.2 else dictLookup l k := by
  by_cases h : p.1 = k <;> simp [dictLookup, List.find?_cons, h]

/-- Python dict semantics of `dictInsert`: the inserted key now maps to the
new value, every other key is untouched. -/
theorem dictLookup_dictInsert (m : List (String × α)) (k k' : String) (v : α) :
    dictLookup (dictInsert m k v) k' = if k' = k then some v else dictLookup m k' := by
  induction m with
  | nil =>
    rw [show dictInsert ([] : List (String × α)) k v = [(k, v)] from rfl, dictLookup_cons]
    rcases eq_or_ne k k' with h | h
    · simp [h]
    · simp [h, Ne.symm h]
  | cons p rest ih =>
    simp only [dictInsert]
    by_cases hp : p.1 = k
    · rw [if_pos hp, dictLookup_cons, dictLookup_cons, hp]
      rcases eq_or_ne k k' with h | h
      · simp [h]
      · simp [h, Ne.symm h]
    · rw [if_neg hp, dictLookup_cons, dictLookup_cons, ih]
      rcases eq_or_ne k' k with h | h
      · subst h
        simp [hp]
      · simp [h]

/-- `findSome?` over an appended list tries the left part first. -/
theorem findSome?_append (l1 l2 : List α) (f : α → Option β) :
    (l1 ++ l2).findSome? f = ((l1.findSome? f).orElse (fun _ => l2.findSome? f)) := by
  induction l1 with
  | nil => simp [List.findSome?]
  | cons a t ih =>
    simp only [List.cons_append, List.findSome?]
    cases f a <;> simp [ih, Option.orElse]

/-- Peeling one row off `lastRankFor`: the head row is consulted only when
no later row selects the key. -/
theorem lastRankFor_cons (g : Bool) (r : AdiRow) (rest : List AdiRow) (k : String) :
    lastRankFor g (r :: rest) k =
      ((lastRankFor g rest k).orElse (fun _ => rowSelect g k r)) := by
  simp only [lastRankFor, List.reverse_cons, findSome?_append]
  cases hs : rowSelect g k r <;>
    cases h2 : List.findSome? (rowSelect g k) rest.reverse <;>
      simp [List.findSome?, hs, h2, Option.orElse]

/-- The row loop, run from any accumulated dict, succeeds when every row's
key derivation succeeds, and a lookup in the result prefers the last
selecting row, falling back to the initial dict. -/
theorem loadGo_lookup (g : Bool) :
    ∀ (rows : List AdiRow) (m0 : List (String × (String × String))),
      (∀ r ∈ rows, ∃ f, rowKey g r = Except.ok f) →
      ∃ m, loadGo g rows m0 = Except.ok m ∧
        ∀ k, dictLookup m k =
          ((lastRankFor g rows k).orElse (fun _ => dictLookup m0 k)) := by
  intro rows
  induction rows with
  | nil =>
    intro m0 _
    refine ⟨m0, rfl, fun k => ?_⟩
    simp [lastRankFor, List.findSome?, Option.orElse]
  | cons r rest ih =>
    intro m0 hok
    obtain ⟨f, hf⟩ := hok r (List.mem_cons_self _ _)
    obtain ⟨m, hm, hlook⟩ :=
      ih (dictInsert m0 f (r.staternk, r.natrank))
        (fun x hx => hok x (List.mem_cons_of_mem _ hx))
    refine ⟨m, ?_, ?_⟩
    · simp only [loadGo]
      rw [hf]
      exact hm
    · intro k
      rw [hlook k, lastRankFor_cons]
      have hsel : rowSelect g k r = if f = k then some (r.staternk, r.natrank) else none := by
        simp [rowSelect, hf]
      rw [hsel, dictLookup_dictInsert]
      cases hl : lastRankFor g rest k
      · rcases eq_or_ne f k with h | h
        · simp [h, Option.orElse]
        · simp [h, Ne.symm h, Option.orElse]
      · simp [Option.orElse]

/-- C9: whenever every row of a source file derives a FIPS key (so the
load finishes with a dict), a lookup of any key in that dict returns the
rank pair contributed by the last row (in file order) whose key it is —
duplicate keys never make the loader fail, the later row simply wins. -/
theorem load_last_write_wins (g : Bool) (rows : List AdiRow)
    (h : ∀ r ∈ rows, ∃ f, rowKey g r = Except.ok f) :
    ∃ m, loadFileRows g rows = Except.ok m ∧
      ∀ k, dictLookup m k = lastRankFor g rows k := by
  obtain ⟨m, hm, hlook⟩ := loadGo_lookup g rows [] h
  refine ⟨m, hm, fun k => ?_⟩
  rw [hlook k]
  cases hl : lastRankFor g rows k <;> simp [Option.orElse, dictLookup, List.find?]

/-- C9 witness: a FIPS-column file with two rows sharing one key loads
fine and maps the key to the second row's ranks. -/
theorem load_last_write_wins_witness :
    (∀ r ∈ dupKeyRows, ∃ f, rowKey false r = Except.ok f) ∧
    (∃ m, loadFileRows false dupKeyRows = Except.ok m ∧
      ∀ k, dictLookup m k = lastRankFor false dupKeyRows k) :=
  ⟨fun r _ => ⟨r.fips, rfl⟩,
   load_last_write_wins false dupKeyRows (fun r _ => ⟨r.fips, rfl⟩)⟩

/-- When the stored FIPS normalizes, the sheet loop always finishes with a
dict (never the empty tuple). -/
theorem get_adi_go_dict_of_valid :
    ∀ (files : List (String × List (String × (String × String)))) (loc : Location),
      (fipsForLookup loc.fips).isSome = true →
      ∃ d, (get_adi_go loc files).2 = AdiResult.dict d := by
  intro files
  induction files with
  | nil => intro loc _; exact ⟨loc.adi_data, rfl⟩
  | cons p rest ih =>
    intro loc h
    cases p with
    | mk ver data =>
      simp only [get_adi_go]
      split
      · rename_i h2
        rw [h2] at h
        exact absurd h (by simp)
      · split
        · exact ih _ h
        · exact ih loc h

/-- C10: with a non-empty stored FIPS of invalid length (not 12, 14 or 15
characters) and at least one loaded dataset, `get_adi` leaves the record
(including its ADI mapping) unchanged and returns the empty tuple — never
the dict, which is what every other path produces (empty stored FIPS gives
a fresh empty dict, an empty dataset list gives the record's mapping, and a
normalizable FIPS always ends in a dict). -/
theorem get_adi_invalid_fips_length (loc : Location)
    (file : String × List (String × (String × String)))
    (rest : List (String × List (String × (String × String))))
    (h0 : loc.fips.length ≠ 0) (h12 : loc.fips.length ≠ 12)
    (h14 : loc.fips.length ≠ 14) (h15 : loc.fips.length ≠ 15) :
    get_adi loc (file :: rest) = (loc, AdiResult.emptyTuple) ∧
    (∀ d, (get_adi loc (file :: rest)).2 ≠ AdiResult.dict d) ∧
    get_adi loc [] = (loc, AdiResult.dict loc.adi_data) ∧
    (∀ loc' : Location, loc'.fips = "" →
      get_adi loc' (file :: rest) = (loc', AdiResult.dict [])) ∧
    (∀ loc' : Location, (fipsForLookup loc'.fips).isSome = true →
      ∃ d, (get_adi loc' (file :: rest)).2 = AdiResult.dict d) := by
  have hnorm : fipsForLookup loc.fips = none := by
    simp [fipsForLookup, h12, h14, h15]
  have hmain : get_adi loc (file :: rest) = (loc, AdiResult.emptyTuple) := by
    unfold get_adi
    rw [if_neg h0]
    cases file with
    | mk ver data =>
      simp only [get_adi_go]
      rw [hnorm]
  refine ⟨hmain, ?_, ?_, ?_, ?_⟩
  · intro d hd
    rw [hmain] at hd
    exact AdiResult.noConfusion hd
  · unfold get_adi
    rw [if_neg h0]
    rfl
  · intro loc' h'
    unfold get_adi
    rw [if_pos (by rw [h']; rfl)]
  · intro loc' h'
    unfold get_adi
    by_cases hz : loc'.fips.length = 0
    · exfalso
      have hzn : fipsForLookup loc'.fips = none := by simp [fipsForLookup, hz]
      rw [hzn] at h'
      exact absurd h' (by simp)
    · rw [if_neg hz]
      exact get_adi_go_dict_of_valid (file :: rest) loc' h'

/-- C10 witness: the claim at a concrete record with a 3-character stored
FIPS and one loaded sheet. -/
theorem get_adi_invalid_fips_length_witness :
    (locBadFips.fips.length ≠ 0 ∧ locBadFips.fips.length ≠ 12 ∧
     locBadFips.fips.length ≠ 14 ∧ locBadFips.fips.length ≠ 15) ∧
    get_adi locBadFips [sheet0] = (locBadFips, AdiResult.emptyTuple) :=
  ⟨by decide,
   (get_adi_invalid_fips_length locBadFips sheet0 []
      (by decide) (by decide) (by decide) (by decide)).1⟩

end AdiSpec
